import Mathlib

/-!
# Verification of the NBA-position grading harness (`grader.py`)

Shallow embedding of the grading logic of this repository in Lean 4.

Modelling conventions:
* Python `float` scores are modelled as exact rationals (`ℚ`).  All score
  values reachable in the grader (`0`, `0.5`, `1`, `k/n` accuracies, the
  weighted sums with weights `0.2/0.3/0.5` and the threshold `0.95`) are
  represented exactly by IEEE doubles up to rounding error far below any
  decision threshold used by the code, so the rational model agrees with
  the Python semantics on every comparison and equality the theorems state.
* `int(0.2 * total_rows)` and `int(0.8 * total_rows)` are modelled as the
  mathematical floors `n / 5` and `4 * n / 5` (natural division); the IEEE
  products agree with the exact products on every row count a CSV file of
  realistic size can have.
* CSV cell values are modelled as `String`s; a pandas `DataFrame` is a
  header row plus a list of data rows, carrying its implicit `RangeIndex`
  positionally (`List.enum` materialises the labels where label-based
  indexing matters).
* Fallible effects are explicit: the pair of files the grader reads is an
  `Env`; a missing `sol.csv` is `none`, a file whose parse raises is
  `Except.error msg`.  `grade` is a total function, mirroring the fact
  that every exception path in the Python code is caught and converted
  into a returned `GradingResult`.
-/

namespace Grader

/-- Substring containment test, the Python `pat in s` operator on `str`. -/
def strContainsSub (s pat : String) : Bool :=
  s.data.tails.any (fun t => pat.data.isPrefixOf t)

/-- Python `str.lower()`: characterwise lowercasing (the headers the grader
inspects are ASCII, where this agrees with Python exactly). -/
def strToLower (s : String) : String :=
  String.mk (s.data.map Char.toLower)

/-- A parsed CSV table: pandas `DataFrame` with its column names and rows
(all cells modelled as strings).  The implicit row index is the
`RangeIndex` `0, 1, 2, ...` of `pd.read_csv`. -/
structure DataFrame where
  header : List String
  rows : List (List String)
deriving DecidableEq, Repr

/-- `df[c].values`: the values of the column named `c` (first header
occurrence; in the grader the name always comes from the header, so the
`none` fallback is unreachable). -/
def DataFrame.col (df : DataFrame) (c : String) : List String :=
  match df.header.findIdx? (fun h => h == c) with
  | some i => df.rows.map (fun r => r.getD i "")
  | none => []

/-- Values of the `details` payload of a `GradingResult`. -/
inductive DetailVal where
  | s : String → DetailVal
  | q : ℚ → DetailVal
  | n : Nat → DetailVal
  | ls : List String → DetailVal
deriving DecidableEq, Repr

/-- The `GradingResult` pydantic model: score, named sub-scores, weights,
optional feedback and optional details, with the model's defaults. -/
structure GradingResult where
  score : ℚ
  subscores : List (String × ℚ) := []
  weights : List (String × ℚ) := []
  feedback : Option String := none
  details : Option (List (String × DetailVal)) := none
deriving DecidableEq, Repr

/-- The two files a grading invocation reads.  `sol = none` models a missing
`sol.csv`; `Except.error msg` models a read/parse that raises with message
`msg`. -/
structure Env where
  sol : Option (Except String DataFrame)
  nba : Except String DataFrame

/-- A single-quote character as a string (used to spell the Python quotes
appearing inside feedback messages). -/
def sq : String := String.mk [Char.ofNat 39]

/-- Python `repr` of a list of strings, as interpolated by the f-string in
the missing-columns feedback message. -/
def pyStrList (l : List String) : String :=
  "[" ++ String.intercalate ", " (l.map (fun c => sq ++ c ++ sq)) ++ "]"

/-! ## Terminal error results (`grader.py` lines 34-39, 56-61, 144-149) -/

/-- Result returned when `sol.csv` does not exist. -/
def missingFileResult : GradingResult :=
  { score := 0
    feedback := some "sol.csv file not found. Please save your predictions to sol.csv"
    details := some [("error", DetailVal.s "missing_predictions_file")] }

/-- Result returned when no header matches the `actual` or the `predicted`
role. -/
def missingColsResult (cols : List String) : GradingResult :=
  { score := 0
    feedback := some ("sol.csv must contain columns with " ++ sq ++ "actual" ++ sq
      ++ " and " ++ sq ++ "predicted" ++ sq ++ " in their names. Found columns: "
      ++ pyStrList cols)
    details := some [("error", DetailVal.s "missing_required_columns"),
                     ("columns", DetailVal.ls cols)] }

/-- Result returned by the catch-all `except Exception` handler. -/
def processingError (msg : String) : GradingResult :=
  { score := 0
    feedback := some ("Error processing predictions: " ++ msg)
    details := some [("error", DetailVal.s "processing_error"),
                     ("exception", DetailVal.s msg)] }

/-! ## Column resolution (`grader.py` lines 45-54)

The Python loop walks all headers with no `break`; `if 'actual' in
col_lower: ... elif 'predicted' in col_lower: ...` means a later match
overwrites an earlier one, and a header matching `actual` is never
considered for the `predicted` role. -/

/-- One pass of the column-resolution loop, accumulating the current
`(actual_col, predicted_col)` pair. -/
def scanCols (acc : Option String × Option String) :
    List String → Option String × Option String
  | [] => acc
  | c :: rest =>
    if strContainsSub (strToLower c) "actual" then scanCols (some c, acc.2) rest
    else if strContainsSub (strToLower c) "predicted" then scanCols (acc.1, some c) rest
    else scanCols acc rest

/-- The resolved `(actual_col, predicted_col)` pair for a header row. -/
def resolveCols (cols : List String) : Option String × Option String :=
  scanCols (none, none) cols

/-- Does a header name claim the `actual` role? (`'actual' in col.lower()`) -/
def actualColMatch (c : String) : Bool :=
  strContainsSub (strToLower c) "actual"

/-- Does a header name claim the `predicted` role? Because of the `elif`,
a name matching `actual` is excluded. -/
def predictedColMatch (c : String) : Bool :=
  !actualColMatch c && strContainsSub (strToLower c) "predicted"

/-- The last element of a list satisfying a predicate (used to state what
the no-`break` resolution loop actually computes). -/
def lastMatch (p : String → Bool) : List String → Option String
  | [] => none
  | c :: rest =>
    match lastMatch p rest with
    | some r => some r
    | none => if p c then some c else none

/-! ## Split reconstruction (`grader.py` lines 63-82) -/

/-- `int(0.2 * total_rows)`: the expected held-out size. -/
def expectedTestSizeOf (totalRows : Nat) : Nat := totalRows / 5

/-- `int(0.8 * total_rows)`: the split boundary (`test_start_idx`). -/
def testStartOf (totalRows : Nat) : Nat := 4 * totalRows / 5

/-- `size_score = 1.0 if abs(actual_test_size - expected_test_size) <= 2
else 0.5`. -/
def sizeScoreOf (actualTestSize expectedTestSize : Nat) : ℚ :=
  if ((actualTestSize : Int) - (expectedTestSize : Int)).natAbs ≤ 2 then 1 else 0.5

/-- `nba_data.iloc[test_start_idx:].copy().loc[1:,'Pos'].values`.

`pd.read_csv` gives `nba_data` the row labels `0..n-1` (`List.enum`);
`iloc[testStart:]` drops the first `testStart` rows keeping their labels;
`.loc[1:]` is *label-based* slicing on the (monotonic) integer index and
keeps every row whose label is `≥ 1`; `['Pos'].values` projects the
position column (`posIdx` is the index of `"Pos"` in the header). -/
def expectedActuals (nba : DataFrame) (posIdx testStart : Nat) : List String :=
  (((nba.rows.enum.drop testStart).filter (fun p => 1 ≤ p.1)).map
    (fun p => p.2.getD posIdx ""))

/-- The expected held-out sequence as claim C1 words it: the `Pos` labels
from the boundary to the end, with the first element of that slice
excluded.  (Claim-side definition, for comparison with `expectedActuals`.) -/
def claimedExpectedHeldOut (pos : List String) (boundary : Nat) : List String :=
  (pos.drop boundary).drop 1

/-! ## Sub-scores (`grader.py` lines 84-117) -/

/-- `correct_test_split`: 1.0 when the submitted `actual` column has the
same length as the expected sequence and `np.array_equal` holds, 0.0
otherwise. -/
def matchScoreOf (actualValues expectedActs : List String) : ℚ :=
  if actualValues.length = expectedActs.length then
    (if actualValues = expectedActs then 1 else 0)
  else 0

/-- `np.sum(actual_values == predicted_values)`: the number of positions
where the two columns agree. -/
def countCorrect (a p : List String) : Nat :=
  ((a.zip p).filter (fun x => x.1 == x.2)).length

/-- `classification_accuracy`: `correct / len` when the two columns have
equal non-zero length, else 0.0. -/
def accuracyScoreOf (a p : List String) : ℚ :=
  if a.length = p.length ∧ 0 < a.length then
    (countCorrect a p : ℚ) / (a.length : ℚ)
  else 0

/-! ## Feedback and details (`grader.py` lines 71-76, 94-117, 136-142) -/

/-- Fixed-point rendering of a non-negative rational with three decimals,
modelling the f-string format `:.3f` (the tie-to-even rounding of the
underlying double is abstracted to exact half-up rounding; no theorem
depends on the rendered digits). -/
def fmt3 (q : ℚ) : String :=
  let m := (q * 1000 + 1 / 2).floor.toNat
  toString (m / 1000) ++ "." ++
    (if m % 1000 < 10 then "00" else if m % 1000 < 100 then "0" else "") ++
    toString (m % 1000)

/-- The feedback note for a wrong test-set size. -/
def sizeNote (actualTestSize expectedTestSize : Nat) : String :=
  "Test set size: " ++ toString actualTestSize ++ ", expected: ~"
    ++ toString expectedTestSize

/-- The feedback note for a wrong test split. -/
def splitNote : String :=
  "The " ++ sq ++ "actual" ++ sq ++ " values don" ++ sq
    ++ "t match the expected test set (last 20% of rows)"

/-- The feedback notes produced by the accuracy computation: both branches
of the `if` append a note, so this list is never empty. -/
def accNotes (a p : List String) : List String :=
  if a.length = p.length ∧ 0 < a.length then
    ["Classification accuracy: " ++ fmt3 (accuracyScoreOf a p),
     "Classification error: " ++ fmt3 (1 - accuracyScoreOf a p)]
  else ["Could not calculate accuracy due to mismatched array lengths"]

/-- The `details` entries added by the accuracy computation. -/
def accDetails (a p : List String) : List (String × DetailVal) :=
  if a.length = p.length ∧ 0 < a.length then
    [("accuracy", DetailVal.q (accuracyScoreOf a p)),
     ("classification_error", DetailVal.q (1 - accuracyScoreOf a p)),
     ("correct_predictions", DetailVal.n (countCorrect a p)),
     ("total_predictions", DetailVal.n a.length)]
  else []

/-- `feedback_parts` as accumulated by the scoring path, in program order:
the size note when `size_score < 1.0`, the split note when
`actual_match_score == 0.0`, then the accuracy notes (always non-empty). -/
def feedbackParts (sizeScore : ℚ) (actualTestSize expectedTestSize : Nat)
    (matchScore : ℚ) (a p : List String) : List String :=
  (if sizeScore < 1 then [ sizeNote actualTestSize expectedTestSize] else [])
    ++ (if matchScore = 0 then [splitNote] else [])
    ++ accNotes a p

/-! ## Final score (`grader.py` lines 119-131) -/

/-- The weighted sum `0.2*test_size + 0.3*split + 0.5*accuracy`, followed
by the bonus override: when every sub-score is `≥ 0.95` the score becomes
`max(weighted, accuracy_score)`. -/
def finalScoreOf (sizeScore matchScore accScore : ℚ) : ℚ :=
  let weighted := sizeScore * 0.2 + matchScore * 0.3 + accScore * 0.5
  if 0.95 ≤ sizeScore ∧ 0.95 ≤ matchScore ∧ 0.95 ≤ accScore then
    max weighted accScore
  else weighted

/-! ## The scoring path and `grade` (`grader.py` lines 17-149) -/

/-- The scoring path, entered once `sol.csv` parsed and both columns were
resolved.  `.loc[1:,'Pos']` raises `KeyError('Pos')` when the ground truth
has no `Pos` column; the catch-all turns that into a processing-error
result (everything computed before the raise is discarded, so checking the
header first is observationally equivalent). -/
def scoreSubmission (pred : DataFrame) (actualCol predictedCol : String)
    (nba : DataFrame) : GradingResult :=
  match nba.header.findIdx? (fun c => c == "Pos") with
  | none => processingError (sq ++ "Pos" ++ sq)
  | some posIdx =>
    let totalRows := nba.rows.length
    let expectedTestSize := expectedTestSizeOf totalRows
    let actualTestSize := pred.rows.length
    let sizeScore := sizeScoreOf actualTestSize expectedTestSize
    let expectedActs := expectedActuals nba posIdx (testStartOf totalRows)
    let actualValues := pred.col actualCol
    let predictedValues := pred.col predictedCol
    let matchScore := matchScoreOf actualValues expectedActs
    let accScore := accuracyScoreOf actualValues predictedValues
    let parts := feedbackParts sizeScore actualTestSize expectedTestSize
      matchScore actualValues predictedValues
    { score := finalScoreOf sizeScore matchScore accScore
      subscores := [("test_size_correct", sizeScore),
                    ("correct_test_split", matchScore),
                    ("classification_accuracy", accScore)]
      weights := [("test_size_correct", 0.2),
                  ("correct_test_split", 0.3),
                  ("classification_accuracy", 0.5)]
      feedback := some (if parts.isEmpty then "Task completed successfully!"
                        else String.intercalate " | " parts)
      details := some (accDetails actualValues predictedValues
        ++ [("test_set_size", DetailVal.n actualTestSize),
            ("expected_test_size", DetailVal.n expectedTestSize)]) }

/-- The whole `grade` function.  It is a *total* Lean function: every
exception path of the Python code is caught and converted into a returned
`GradingResult`, so no invocation raises to the caller. -/
def grade (env : Env) : GradingResult :=
  match env.sol with
  | none => missingFileResult
  | some (Except.error msg) => processingError msg
  | some (Except.ok predictions) =>
    match resolveCols predictions.header with
    | (some actualCol, some predictedCol) =>
      match env.nba with
      | Except.error msg => processingError msg
      | Except.ok nbaData => scoreSubmission predictions actualCol predictedCol nbaData
    | _ => missingColsResult predictions.header

/-- The `details.error` tag of a result, when present. -/
def detailError (r : GradingResult) : Option DetailVal :=
  r.details.bind (fun d => List.lookup "error" d)

/-! ## Concrete fixtures -/

/-- A ten-row ground-truth table: boundary `int(0.8*10) = 8`, expected
test size `int(0.2*10) = 2`, expected held-out labels `["PF", "C"]`. -/
def nbaW : DataFrame :=
  ⟨["Player", "Pos"],
   [["A", "PG"], ["B", "SG"], ["C", "SF"], ["D", "PF"], ["E", "C"],
    ["F", "PG"], ["G", "SG"], ["H", "SF"], ["I", "PF"], ["J", "C"]]⟩

/-- A submission reproducing the expected split with perfect predictions. -/
def predW : DataFrame :=
  ⟨["actual", "predicted"], [["PF", "PF"], ["C", "C"]]⟩

/-- Environment of a perfect grading run. -/
def envW : Env := ⟨some (Except.ok predW), Except.ok nbaW⟩

/-- Environment in which `sol.csv` does not exist. -/
def envMissing : Env := ⟨none, Except.ok nbaW⟩

/-- The header row of the §8 example submission, matching neither role. -/
def dfNoCols : DataFrame := ⟨["name", "guess", "truth"], [["x", "y", "z"]]⟩

/-! ## Helper lemmas: pandas label slicing -/

theorem enumFrom_drop {α : Type} (l : List α) :
    ∀ i k, (List.enumFrom i l).drop k = List.enumFrom (i + k) (l.drop k) := by
  induction l with
  | nil => intro i k; simp
  | cons x t ih =>
    intro i k
    cases k with
    | zero => simp
    | succ k =>
      simp only [List.enumFrom, List.drop_succ_cons]
      rw [ih (i + 1) k]
      congr 1
      omega

theorem enumFrom_filter_pos {α : Type} (l : List α) :
    ∀ i, 1 ≤ i →
      (List.enumFrom i l).filter (fun p => 1 ≤ p.1) = List.enumFrom i l := by
  induction l with
  | nil => intro i _; rfl
  | cons x t ih =>
    intro i hi
    simp only [List.enumFrom, List.filter_cons, decide_eq_true_eq]
    rw [if_pos hi, ih (i + 1) (by omega)]

theorem enumFrom_map_getD (posIdx : Nat) (l : List (List String)) :
    ∀ i, (List.enumFrom i l).map (fun p => p.2.getD posIdx "")
      = l.map (fun r => r.getD posIdx "") := by
  induction l with
  | nil => intro i; rfl
  | cons x t ih =>
    intro i
    simp only [List.enumFrom, List.map_cons]
    rw [ih (i + 1)]

/-- What the grader's `.loc[1:]` slice computes: the `Pos` column from the
boundary on, except that the row labelled `0` is also removed — which only
matters when the boundary is `0`. -/
theorem expectedActuals_eq_drop (nba : DataFrame) (posIdx testStart : Nat) :
    expectedActuals nba posIdx testStart
      = (nba.rows.map (fun r => r.getD posIdx "")).drop (max testStart 1) := by
  unfold expectedActuals
  cases testStart with
  | zero =>
    cases hrows : nba.rows with
    | nil => simp
    | cons r t =>
      have h1 : List.enum (r :: t) = (0, r) :: List.enumFrom 1 t := rfl
      simp only [hrows, h1, List.drop_zero, List.filter_cons, decide_eq_true_eq]
      rw [if_neg (by omega), enumFrom_filter_pos t 1 (by omega),
        enumFrom_map_getD posIdx t 1]
      simp
  | succ k =>
    have h0 : List.enum nba.rows = List.enumFrom 0 nba.rows := rfl
    have hmax : (k + 1) ⊔ 1 = k + 1 := by omega
    rw [h0, enumFrom_drop, enumFrom_filter_pos _ _ (by omega),
      enumFrom_map_getD posIdx, hmax, List.map_drop]

/-! ## Helper lemmas: column resolution -/

theorem scanCols_eq (cols : List String) :
    ∀ a p : Option String,
      scanCols (a, p) cols
        = ((lastMatch actualColMatch cols).elim a some,
           (lastMatch predictedColMatch cols).elim p some) := by
  induction cols with
  | nil => intro a p; rfl
  | cons c rest ih =>
    intro a p
    by_cases hA : strContainsSub (strToLower c) "actual" = true
    · have hstep : scanCols (a, p) (c :: rest) = scanCols (some c, p) rest := by
        simp [scanCols, hA]
      have hAc : actualColMatch c = true := hA
      have hPc : predictedColMatch c = false := by
        simp [predictedColMatch, actualColMatch, hA]
      rw [hstep, ih (some c) p]
      cases hL : lastMatch actualColMatch rest <;>
        cases hP : lastMatch predictedColMatch rest <;>
          simp [lastMatch, hL, hP, hAc, hPc, Option.elim]
    · by_cases hB : strContainsSub (strToLower c) "predicted" = true
      · have hstep : scanCols (a, p) (c :: rest) = scanCols (a, some c) rest := by
          simp [scanCols, hA, hB]
        have hAc : actualColMatch c = false := by simp [actualColMatch, hA]
        have hPc : predictedColMatch c = true := by
          simp [predictedColMatch, actualColMatch, hA, hB]
        rw [hstep, ih a (some c)]
        cases hL : lastMatch actualColMatch rest <;>
          cases hP : lastMatch predictedColMatch rest <;>
            simp [lastMatch, hL, hP, hAc, hPc, Option.elim]
      · have hstep : scanCols (a, p) (c :: rest) = scanCols (a, p) rest := by
          simp [scanCols, hA, hB]
        have hAc : actualColMatch c = false := by simp [actualColMatch, hA]
        have hPc : predictedColMatch c = false := by
          simp [predictedColMatch, actualColMatch, hA, hB]
        rw [hstep, ih a p]
        cases hL : lastMatch actualColMatch rest <;>
          cases hP : lastMatch predictedColMatch rest <;>
            simp [lastMatch, hL, hP, hAc, hPc, Option.elim]

/-- The resolution loop keeps the *last* matching header for each role. -/
theorem resolveCols_eq (cols : List String) :
    resolveCols cols
      = (lastMatch actualColMatch cols, lastMatch predictedColMatch cols) := by
  rw [resolveCols, scanCols_eq cols none none]
  cases lastMatch actualColMatch cols <;>
    cases lastMatch predictedColMatch cols <;> simp [Option.elim]

/-! ## Helper lemmas: sub-score values -/

theorem matchScoreOf_eq (a e : List String) :
    matchScoreOf a e = if a = e then 1 else 0 := by
  by_cases h : a = e
  · subst h; simp [matchScoreOf]
  · simp [matchScoreOf, h]

theorem sizeScoreOf_cases (a e : Nat) :
    sizeScoreOf a e = 1 ∨ sizeScoreOf a e = 0.5 := by
  unfold sizeScoreOf
  split
  · exact Or.inl rfl
  · exact Or.inr rfl

theorem matchScoreOf_cases (a e : List String) :
    matchScoreOf a e = 1 ∨ matchScoreOf a e = 0 := by
  rw [matchScoreOf_eq]
  split
  · exact Or.inl rfl
  · exact Or.inr rfl

theorem countCorrect_le (a p : List String) : countCorrect a p ≤ a.length :=
  le_trans (List.length_filter_le _ _)
    (by rw [List.length_zip]; exact min_le_left _ _)

theorem countCorrect_self (a : List String) : countCorrect a a = a.length := by
  induction a with
  | nil => rfl
  | cons x t ih =>
    unfold countCorrect at ih ⊢
    simp only [List.zip_cons_cons, List.filter_cons, beq_self_eq_true, if_true,
      List.length_cons]
    rw [ih]

theorem accuracyScoreOf_nonneg (a p : List String) : 0 ≤ accuracyScoreOf a p := by
  unfold accuracyScoreOf
  split
  · positivity
  · exact le_refl 0

theorem accuracyScoreOf_le_one (a p : List String) : accuracyScoreOf a p ≤ 1 := by
  unfold accuracyScoreOf
  split
  · next h =>
    rw [div_le_one (by exact_mod_cast h.2)]
    exact_mod_cast countCorrect_le a p
  · norm_num

theorem accuracyScoreOf_self (a : List String) (h : 0 < a.length) :
    accuracyScoreOf a a = 1 := by
  unfold accuracyScoreOf
  rw [if_pos ⟨rfl, h⟩, countCorrect_self]
  exact div_self (by exact_mod_cast h.ne')

/-! ## Helper lemmas: final score -/

theorem weighted_le_finalScoreOf (s m c : ℚ) :
    s * 0.2 + m * 0.3 + c * 0.5 ≤ finalScoreOf s m c := by
  simp only [finalScoreOf]
  split
  · exact le_max_left _ _
  · exact le_rfl

theorem finalScoreOf_eq_weighted (s m c : ℚ) (hs : s = 1 ∨ s = 0.5)
    (hm : m = 1 ∨ m = 0) (hc1 : c ≤ 1) :
    finalScoreOf s m c = s * 0.2 + m * 0.3 + c * 0.5 := by
  simp only [finalScoreOf]
  split
  · next h =>
    obtain ⟨h1, h2, h3⟩ := h
    have hs1 : s = 1 := by
      rcases hs with h | h
      · exact h
      · rw [h] at h1; norm_num at h1
    have hm1 : m = 1 := by
      rcases hm with h | h
      · exact h
      · rw [h] at h2; norm_num at h2
    subst hs1 hm1
    rw [max_eq_left]
    linarith
  · rfl

/-! ## Helper lemmas: unfolding `grade` and `scoreSubmission` -/

theorem grade_scoring (env : Env) (pred : DataFrame) (aCol pCol : String)
    (nba : DataFrame)
    (h1 : env.sol = some (Except.ok pred))
    (h2 : resolveCols pred.header = (some aCol, some pCol))
    (h3 : env.nba = Except.ok nba) :
    grade env = scoreSubmission pred aCol pCol nba := by
  simp [grade, h1, h2, h3]

theorem scoreSubmission_subscores (pred : DataFrame) (aCol pCol : String)
    (nba : DataFrame) (posIdx : Nat)
    (h : nba.header.findIdx? (fun c => c == "Pos") = some posIdx) :
    (scoreSubmission pred aCol pCol nba).subscores
      = [("test_size_correct",
            sizeScoreOf pred.rows.length (expectedTestSizeOf nba.rows.length)),
         ("correct_test_split",
            matchScoreOf (pred.col aCol)
              (expectedActuals nba posIdx (testStartOf nba.rows.length))),
         ("classification_accuracy",
            accuracyScoreOf (pred.col aCol) (pred.col pCol))] := by
  simp [scoreSubmission, h]

theorem scoreSubmission_score (pred : DataFrame) (aCol pCol : String)
    (nba : DataFrame) (posIdx : Nat)
    (h : nba.header.findIdx? (fun c => c == "Pos") = some posIdx) :
    (scoreSubmission pred aCol pCol nba).score
      = finalScoreOf
          (sizeScoreOf pred.rows.length (expectedTestSizeOf nba.rows.length))
          (matchScoreOf (pred.col aCol)
            (expectedActuals nba posIdx (testStartOf nba.rows.length)))
          (accuracyScoreOf (pred.col aCol) (pred.col pCol)) := by
  simp [scoreSubmission, h]

theorem scoreSubmission_feedback (pred : DataFrame) (aCol pCol : String)
    (nba : DataFrame) (posIdx : Nat)
    (h : nba.header.findIdx? (fun c => c == "Pos") = some posIdx) :
    (scoreSubmission pred aCol pCol nba).feedback
      = some (if (feedbackParts
                (sizeScoreOf pred.rows.length (expectedTestSizeOf nba.rows.length))
                pred.rows.length (expectedTestSizeOf nba.rows.length)
                (matchScoreOf (pred.col aCol)
                  (expectedActuals nba posIdx (testStartOf nba.rows.length)))
                (pred.col aCol) (pred.col pCol)).isEmpty
              then "Task completed successfully!"
              else String.intercalate " | "
                (feedbackParts
                  (sizeScoreOf pred.rows.length (expectedTestSizeOf nba.rows.length))
                  pred.rows.length (expectedTestSizeOf nba.rows.length)
                  (matchScoreOf (pred.col aCol)
                    (expectedActuals nba posIdx (testStartOf nba.rows.length)))
                  (pred.col aCol) (pred.col pCol))) := by
  simp [scoreSubmission, h]

theorem accNotes_ne_nil (a p : List String) : accNotes a p ≠ [] := by
  unfold accNotes
  split <;> simp

theorem feedbackParts_ne_nil (s : ℚ) (ats ets : Nat) (m : ℚ)
    (a p : List String) : feedbackParts s ats ets m a p ≠ [] := by
  unfold feedbackParts
  intro h
  rcases List.append_eq_nil.mp h with ⟨-, h2⟩
  exact accNotes_ne_nil a p h2

/-! ## Claims -/

/-- C1, counterexample: on a ten-row ground truth the boundary is
`int(0.8*10) = 8` and the sequence the grader compares against is
`["PF", "C"]`, the *whole* held-out slice of the `Pos` column — not that
slice with its first element dropped, as the claim states (the label-based
`.loc[1:]` keeps every row whose label is at least 1, and all labels in
the slice are at least 8). -/
theorem c1_counterexample :
    expectedActuals nbaW 1 (testStartOf nbaW.rows.length) = ["PF", "C"]
    ∧ expectedActuals nbaW 1 (testStartOf nbaW.rows.length)
        ≠ claimedExpectedHeldOut (nbaW.col "Pos")
            (testStartOf nbaW.rows.length) := by
  exact ⟨by decide, by decide⟩

/-- C1 (amended): for every ground-truth table, the expected held-out
label sequence used for comparison is the `Pos` labels of the rows whose
original row index is at least `max(boundary, 1)` where
`boundary = int(0.8 * total rows)` — that is, the full slice from the
boundary to the end with *no* element excluded whenever the boundary is at
least 1; the row labelled 0 is excluded only in the degenerate case
`boundary = 0`, because `.loc[1:]` slices by label, not by position. -/
theorem c1_expected_heldout (nba : DataFrame) (posIdx : Nat) :
    expectedActuals nba posIdx (testStartOf nba.rows.length)
      = (nba.rows.map (fun r => r.getD posIdx "")).drop
          (max (testStartOf nba.rows.length) 1) :=
  expectedActuals_eq_drop nba posIdx (testStartOf nba.rows.length)

/-- C4, counterexample: with header row `["actual_a", "actual_b",
"predicted_c"]` the grader resolves the actual role to `"actual_b"` — the
*last* header containing `"actual"` — whereas the claim says the first
match (`"actual_a"`) wins. -/
theorem c4_counterexample :
    (resolveCols ["actual_a", "actual_b", "predicted_c"]).1 = some "actual_b"
    ∧ (resolveCols ["actual_a", "actual_b", "predicted_c"]).1
        ≠ List.find? (fun c => strContainsSub (strToLower c) "actual")
            ["actual_a", "actual_b", "predicted_c"] := by
  exact ⟨by decide, by decide⟩

/-- C4 (amended): the `actual` role resolves to the *last* header name
containing "actual" (case-insensitive) and the `predicted` role to the
last header name containing "predicted" but not "actual" (the loop has no
`break`, so a later match overwrites an earlier one, and the `elif`
excludes actual-matching headers from the predicted role); if either role
has no matching header, grading terminates with score 0.0 and
`details.error == "missing_required_columns"`. -/
theorem c4_amended (df : DataFrame) (gt : Except String DataFrame) :
    resolveCols df.header
      = (lastMatch actualColMatch df.header,
         lastMatch predictedColMatch df.header)
    ∧ (((resolveCols df.header).1 = none ∨ (resolveCols df.header).2 = none) →
        grade ⟨some (Except.ok df), gt⟩ = missingColsResult df.header
        ∧ (grade ⟨some (Except.ok df), gt⟩).score = 0
        ∧ detailError (grade ⟨some (Except.ok df), gt⟩)
            = some (DetailVal.s "missing_required_columns")) := by
  refine ⟨resolveCols_eq df.header, fun h => ?_⟩
  have hg : grade ⟨some (Except.ok df), gt⟩ = missingColsResult df.header := by
    rcases hr : resolveCols df.header with ⟨a?, p?⟩
    rw [hr] at h
    cases a? <;> cases p? <;> simp_all [grade, hr]
  exact ⟨hg, by rw [hg]; rfl, by rw [hg]; rfl⟩

/-- Witness for `c4_amended`, at the §8 example header
`["name", "guess", "truth"]` (no header matches either role). -/
theorem c4_witness :
    grade ⟨some (Except.ok dfNoCols), Except.ok nbaW⟩
        = missingColsResult dfNoCols.header
    ∧ (grade ⟨some (Except.ok dfNoCols), Except.ok nbaW⟩).score = 0
    ∧ detailError (grade ⟨some (Except.ok dfNoCols), Except.ok nbaW⟩)
        = some (DetailVal.s "missing_required_columns") :=
  (c4_amended dfNoCols (Except.ok nbaW)).2 (by decide)

/-- C7: `grade` is a total function — every exception path of the Python
code is caught and converted into a returned result, so no invocation
raises to the caller — and each failure mode yields a terminal zero-score
result with the stated `details.error` tag and no sub-scores (no further
scoring is attempted): a missing `sol.csv` gives
`missing_predictions_file`; an unresolvable header row gives
`missing_required_columns`; an exception while parsing the submission,
reading the ground truth, or projecting its `Pos` column gives
`processing_error`. -/
theorem c7_error_handling (env : Env) :
    (env.sol = none →
       grade env = missingFileResult
       ∧ (grade env).score = 0
       ∧ detailError (grade env) = some (DetailVal.s "missing_predictions_file")
       ∧ (grade env).subscores = [])
  ∧ (∀ msg, env.sol = some (Except.error msg) →
       (grade env).score = 0
       ∧ detailError (grade env) = some (DetailVal.s "processing_error")
       ∧ (grade env).subscores = [])
  ∧ (∀ pred, env.sol = some (Except.ok pred) →
       ((resolveCols pred.header).1 = none ∨ (resolveCols pred.header).2 = none) →
       (grade env).score = 0
       ∧ detailError (grade env) = some (DetailVal.s "missing_required_columns")
       ∧ (grade env).subscores = [])
  ∧ (∀ pred aCol pCol msg, env.sol = some (Except.ok pred) →
       resolveCols pred.header = (some aCol, some pCol) →
       env.nba = Except.error msg →
       (grade env).score = 0
       ∧ detailError (grade env) = some (DetailVal.s "processing_error")
       ∧ (grade env).subscores = [])
  ∧ (∀ pred aCol pCol nba, env.sol = some (Except.ok pred) →
       resolveCols pred.header = (some aCol, some pCol) →
       env.nba = Except.ok nba →
       nba.header.findIdx? (fun c => c == "Pos") = none →
       (grade env).score = 0
       ∧ detailError (grade env) = some (DetailVal.s "processing_error")
       ∧ (grade env).subscores = []) := by
  refine ⟨?_, ?_, ?_, ?_, ?_⟩
  · intro h
    have hg : grade env = missingFileResult := by simp [grade, h]
    exact ⟨hg, by rw [hg]; rfl, by rw [hg]; rfl, by rw [hg]; rfl⟩
  · intro msg h
    have hg : grade env = processingError msg := by simp [grade, h]
    exact ⟨by rw [hg]; rfl, by rw [hg]; rfl, by rw [hg]; rfl⟩
  · intro pred h hcols
    have hg : grade env = missingColsResult pred.header := by
      rcases hr : resolveCols pred.header with ⟨a?, p?⟩
      rw [hr] at hcols
      cases a? <;> cases p? <;> simp_all [grade, hr]
    exact ⟨by rw [hg]; rfl, by rw [hg]; rfl, by rw [hg]; rfl⟩
  · intro pred aCol pCol msg h1 h2 h3
    have hg : grade env = processingError msg := by simp [grade, h1, h2, h3]
    exact ⟨by rw [hg]; rfl, by rw [hg]; rfl, by rw [hg]; rfl⟩
  · intro pred aCol pCol nba h1 h2 h3 h4
    have hg : grade env = processingError (sq ++ "Pos" ++ sq) := by
      rw [grade_scoring env pred aCol pCol nba h1 h2 h3]
      simp [scoreSubmission, h4]
    exact ⟨by rw [hg]; rfl, by rw [hg]; rfl, by rw [hg]; rfl⟩

/-- Witness for `c7_error_handling`: the missing-file branch at
`envMissing`. -/
theorem c7_witness :
    grade envMissing = missingFileResult
    ∧ (grade envMissing).score = 0
    ∧ detailError (grade envMissing)
        = some (DetailVal.s "missing_predictions_file")
    ∧ (grade envMissing).subscores = [] :=
  (c7_error_handling envMissing).1 rfl

/-- C9: grading is deterministic and idempotent — `grade` is a pure
function of the two file contents (the only state the Python code reads),
so two invocations on equal file contents return identical results. -/
theorem c9_deterministic (env1 env2 : Env) (h : env1 = env2) :
    grade env1 = grade env2 := by rw [h]

/-- Witness for `c9_deterministic`. -/
theorem c9_witness : grade envW = grade envW :=
  c9_deterministic envW envW rfl

/-- C2: for every submission that reaches scoring, the sub-score
`correct_test_split` is 1.0 exactly when the submitted actual-label
sequence is elementwise identical (same length, same values, same order)
to the expected held-out sequence, and 0.0 otherwise — so a difference in
any single position, or any length mismatch, gives 0.0 with no partial
credit. -/
theorem c2_correct_test_split (env : Env) (pred nba : DataFrame)
    (aCol pCol : String) (posIdx : Nat)
    (h1 : env.sol = some (Except.ok pred))
    (h2 : resolveCols pred.header = (some aCol, some pCol))
    (h3 : env.nba = Except.ok nba)
    (h4 : nba.header.findIdx? (fun c => c == "Pos") = some posIdx) :
    List.lookup "correct_test_split" (grade env).subscores
      = some (if pred.col aCol
                = expectedActuals nba posIdx (testStartOf nba.rows.length)
              then (1 : ℚ) else 0) := by
  rw [grade_scoring env pred aCol pCol nba h1 h2 h3,
    scoreSubmission_subscores pred aCol pCol nba posIdx h4]
  simp [List.lookup, matchScoreOf_eq]

/-- Witness for `c2_correct_test_split` at the perfect run `envW`. -/
theorem c2_witness :
    List.lookup "correct_test_split" (grade envW).subscores
      = some (if predW.col "actual"
                = expectedActuals nbaW 1 (testStartOf nbaW.rows.length)
              then (1 : ℚ) else 0) :=
  c2_correct_test_split envW predW nbaW "actual" "predicted" 1 rfl (by decide)
    rfl (by decide)

/-- C3: for every graded submission that reaches scoring, the final score
equals `0.2*test_size_correct + 0.3*correct_test_split +
0.5*classification_accuracy`, except that when every sub-score is ≥ 0.95
it equals `max(weighted sum, classification_accuracy)`; and the override
never lowers the score below the weighted sum. -/
theorem c3_final_score (env : Env) (pred nba : DataFrame)
    (aCol pCol : String) (posIdx : Nat) (ts cs ca : ℚ)
    (h1 : env.sol = some (Except.ok pred))
    (h2 : resolveCols pred.header = (some aCol, some pCol))
    (h3 : env.nba = Except.ok nba)
    (h4 : nba.header.findIdx? (fun c => c == "Pos") = some posIdx)
    (hts : List.lookup "test_size_correct" (grade env).subscores = some ts)
    (hcs : List.lookup "correct_test_split" (grade env).subscores = some cs)
    (hca : List.lookup "classification_accuracy" (grade env).subscores = some ca) :
    (grade env).score
      = (if 0.95 ≤ ts ∧ 0.95 ≤ cs ∧ 0.95 ≤ ca
         then max (0.2 * ts + 0.3 * cs + 0.5 * ca) ca
         else 0.2 * ts + 0.3 * cs + 0.5 * ca)
    ∧ 0.2 * ts + 0.3 * cs + 0.5 * ca ≤ (grade env).score := by
  rw [grade_scoring env pred aCol pCol nba h1 h2 h3] at hts hcs hca ⊢
  rw [scoreSubmission_subscores pred aCol pCol nba posIdx h4] at hts hcs hca
  have hts' : sizeScoreOf pred.rows.length (expectedTestSizeOf nba.rows.length) = ts :=
    Option.some.inj hts
  have hcs' : matchScoreOf (pred.col aCol)
      (expectedActuals nba posIdx (testStartOf nba.rows.length)) = cs :=
    Option.some.inj hcs
  have hca' : accuracyScoreOf (pred.col aCol) (pred.col pCol) = ca :=
    Option.some.inj hca
  subst hts' hcs' hca'
  rw [scoreSubmission_score pred aCol pCol nba posIdx h4]
  constructor
  · simp only [finalScoreOf]
    split
    · congr 1
      ring
    · ring
  · have := weighted_le_finalScoreOf
      (sizeScoreOf pred.rows.length (expectedTestSizeOf nba.rows.length))
      (matchScoreOf (pred.col aCol)
        (expectedActuals nba posIdx (testStartOf nba.rows.length)))
      (accuracyScoreOf (pred.col aCol) (pred.col pCol))
    linarith

/-- Witness for `c3_final_score` at the perfect run `envW`. -/
theorem c3_witness :
    (grade envW).score
      = (if 0.95 ≤ sizeScoreOf predW.rows.length (expectedTestSizeOf nbaW.rows.length)
            ∧ 0.95 ≤ matchScoreOf (predW.col "actual")
                (expectedActuals nbaW 1 (testStartOf nbaW.rows.length))
            ∧ 0.95 ≤ accuracyScoreOf (predW.col "actual") (predW.col "predicted")
         then max (0.2 * sizeScoreOf predW.rows.length (expectedTestSizeOf nbaW.rows.length)
              + 0.3 * matchScoreOf (predW.col "actual")
                  (expectedActuals nbaW 1 (testStartOf nbaW.rows.length))
              + 0.5 * accuracyScoreOf (predW.col "actual") (predW.col "predicted"))
              (accuracyScoreOf (predW.col "actual") (predW.col "predicted"))
         else 0.2 * sizeScoreOf predW.rows.length (expectedTestSizeOf nbaW.rows.length)
              + 0.3 * matchScoreOf (predW.col "actual")
                  (expectedActuals nbaW 1 (testStartOf nbaW.rows.length))
              + 0.5 * accuracyScoreOf (predW.col "actual") (predW.col "predicted"))
    ∧ 0.2 * sizeScoreOf predW.rows.length (expectedTestSizeOf nbaW.rows.length)
        + 0.3 * matchScoreOf (predW.col "actual")
            (expectedActuals nbaW 1 (testStartOf nbaW.rows.length))
        + 0.5 * accuracyScoreOf (predW.col "actual") (predW.col "predicted")
        ≤ (grade envW).score :=
  c3_final_score envW predW nbaW "actual" "predicted" 1
    (sizeScoreOf predW.rows.length (expectedTestSizeOf nbaW.rows.length))
    (matchScoreOf (predW.col "actual")
      (expectedActuals nbaW 1 (testStartOf nbaW.rows.length)))
    (accuracyScoreOf (predW.col "actual") (predW.col "predicted"))
    rfl (by decide) rfl (by decide) rfl rfl rfl

/-- C5: for every submission reaching scoring whose resolved actual and
predicted sequences have equal non-zero length, `classification_accuracy`
is exactly (number of agreeing positions) / length, with no further
transform; for unequal or zero lengths the sub-score is 0.0; when
predicted equals actual on every row the sub-score is 1.0, and if the
other two sub-scores are also ≥ 0.95 the final score is 1.0. -/
theorem c5_accuracy (env : Env) (pred nba : DataFrame)
    (aCol pCol : String) (posIdx : Nat)
    (h1 : env.sol = some (Except.ok pred))
    (h2 : resolveCols pred.header = (some aCol, some pCol))
    (h3 : env.nba = Except.ok nba)
    (h4 : nba.header.findIdx? (fun c => c == "Pos") = some posIdx)
    (hlen : (pred.col aCol).length = (pred.col pCol).length)
    (hpos : 0 < (pred.col aCol).length) :
    List.lookup "classification_accuracy" (grade env).subscores
      = some ((countCorrect (pred.col aCol) (pred.col pCol) : ℚ)
          / ((pred.col aCol).length : ℚ))
    ∧ (∀ a p : List String, a.length ≠ p.length ∨ a.length = 0 →
        accuracyScoreOf a p = 0)
    ∧ (pred.col aCol = pred.col pCol →
        List.lookup "classification_accuracy" (grade env).subscores = some 1
        ∧ (0.95 ≤ sizeScoreOf pred.rows.length (expectedTestSizeOf nba.rows.length) →
           0.95 ≤ matchScoreOf (pred.col aCol)
              (expectedActuals nba posIdx (testStartOf nba.rows.length)) →
           (grade env).score = 1)) := by
  rw [grade_scoring env pred aCol pCol nba h1 h2 h3]
  refine ⟨?_, ?_, ?_⟩
  · rw [scoreSubmission_subscores pred aCol pCol nba posIdx h4]
    have hacc : accuracyScoreOf (pred.col aCol) (pred.col pCol)
        = (countCorrect (pred.col aCol) (pred.col pCol) : ℚ)
            / ((pred.col aCol).length : ℚ) := by
      unfold accuracyScoreOf
      rw [if_pos ⟨hlen, hpos⟩]
    exact congrArg some hacc
  · intro a p h
    unfold accuracyScoreOf
    rw [if_neg]
    rintro ⟨he, hp⟩
    rcases h with h | h
    · exact h he
    · omega
  · intro heq
    constructor
    · rw [scoreSubmission_subscores pred aCol pCol nba posIdx h4]
      have hacc1 : accuracyScoreOf (pred.col aCol) (pred.col pCol) = 1 := by
        rw [← heq]
        exact accuracyScoreOf_self _ hpos
      exact congrArg some hacc1
    · intro hs hm
      rw [scoreSubmission_score pred aCol pCol nba posIdx h4, ← heq,
        accuracyScoreOf_self _ hpos]
      simp only [finalScoreOf]
      rw [if_pos ⟨hs, hm, by norm_num⟩]
      have hsle : sizeScoreOf pred.rows.length (expectedTestSizeOf nba.rows.length) ≤ 1 := by
        rcases sizeScoreOf_cases pred.rows.length (expectedTestSizeOf nba.rows.length)
          with h | h <;> norm_num [h]
      have hmle : matchScoreOf (pred.col aCol)
          (expectedActuals nba posIdx (testStartOf nba.rows.length)) ≤ 1 := by
        rcases matchScoreOf_cases (pred.col aCol)
          (expectedActuals nba posIdx (testStartOf nba.rows.length))
          with h | h <;> norm_num [h]
      rw [max_eq_right (by linarith)]

/-- Witness for `c5_accuracy` at the perfect run `envW`. -/
theorem c5_witness :
    List.lookup "classification_accuracy" (grade envW).subscores
      = some ((countCorrect (predW.col "actual") (predW.col "predicted") : ℚ)
          / ((predW.col "actual").length : ℚ))
    ∧ (∀ a p : List String, a.length ≠ p.length ∨ a.length = 0 →
        accuracyScoreOf a p = 0)
    ∧ (predW.col "actual" = predW.col "predicted" →
        List.lookup "classification_accuracy" (grade envW).subscores = some 1
        ∧ (0.95 ≤ sizeScoreOf predW.rows.length (expectedTestSizeOf nbaW.rows.length) →
           0.95 ≤ matchScoreOf (predW.col "actual")
              (expectedActuals nbaW 1 (testStartOf nbaW.rows.length)) →
           (grade envW).score = 1)) :=
  c5_accuracy envW predW nbaW "actual" "predicted" 1 rfl (by decide) rfl
    (by decide) (by decide) (by decide)

/-- C6: for every submission reaching scoring, `test_size_correct` is 1.0
when the absolute difference between the submission row count and
`expected_test_size = int(0.2 * total rows)` is at most 2 and 0.5
otherwise — never 0.0; for a 100-row ground truth the expected test size
is 20 and the split boundary is 80. -/
theorem c6_test_size (env : Env) (pred nba : DataFrame)
    (aCol pCol : String) (posIdx : Nat)
    (h1 : env.sol = some (Except.ok pred))
    (h2 : resolveCols pred.header = (some aCol, some pCol))
    (h3 : env.nba = Except.ok nba)
    (h4 : nba.header.findIdx? (fun c => c == "Pos") = some posIdx) :
    List.lookup "test_size_correct" (grade env).subscores
      = some (if ((pred.rows.length : Int)
                  - (expectedTestSizeOf nba.rows.length : Int)).natAbs ≤ 2
              then (1 : ℚ) else 0.5)
    ∧ (∀ v : ℚ,
        List.lookup "test_size_correct" (grade env).subscores = some v → v ≠ 0)
    ∧ expectedTestSizeOf 100 = 20 ∧ testStartOf 100 = 80 := by
  rw [grade_scoring env pred aCol pCol nba h1 h2 h3,
    scoreSubmission_subscores pred aCol pCol nba posIdx h4]
  refine ⟨?_, ?_, by decide, by decide⟩
  · simp only [List.lookup, Option.some.injEq]
    rfl
  · intro v hv
    have hv' : sizeScoreOf pred.rows.length (expectedTestSizeOf nba.rows.length) = v :=
      Option.some.inj hv
    rcases sizeScoreOf_cases pred.rows.length (expectedTestSizeOf nba.rows.length)
      with h | h <;> rw [h] at hv' <;> rw [← hv'] <;> norm_num

/-- Witness for `c6_test_size` at the perfect run `envW`. -/
theorem c6_witness :
    List.lookup "test_size_correct" (grade envW).subscores
      = some (if ((predW.rows.length : Int)
                  - (expectedTestSizeOf nbaW.rows.length : Int)).natAbs ≤ 2
              then (1 : ℚ) else 0.5)
    ∧ (∀ v : ℚ,
        List.lookup "test_size_correct" (grade envW).subscores = some v → v ≠ 0)
    ∧ expectedTestSizeOf 100 = 20 ∧ testStartOf 100 = 80 :=
  c6_test_size envW predW nbaW "actual" "predicted" 1 rfl (by decide) rfl
    (by decide)

/-- A string starting with the classification-accuracy note is never the
generic success message (they differ in their first character). -/
theorem accHead_ne_success (x y : String) :
    (("Classification accuracy: " ++ x) ++ " | ") ++ y
      ≠ "Task completed successfully!" := by
  obtain ⟨xd⟩ := x
  obtain ⟨yd⟩ := y
  intro h
  have hh : ((("Classification accuracy: " ++ String.mk xd) ++ " | ")
      ++ String.mk yd).data.head? = some 'C' := rfl
  rw [h] at hh
  exact absurd hh (by decide)

/-- C8, counterexample: on the perfect run `envW` every sub-score attains
its maximum (all three are 1.0), yet the feedback is not the generic
success message — the accuracy branch always appends its notes, so the
success branch is unreachable. -/
theorem c8_counterexample :
    (grade envW).subscores
      = [("test_size_correct", 1), ("correct_test_split", 1),
         ("classification_accuracy", 1)]
    ∧ (grade envW).feedback ≠ some "Task completed successfully!" := by
  have hs : sizeScoreOf predW.rows.length (expectedTestSizeOf nbaW.rows.length) = 1 := by
    unfold sizeScoreOf
    rw [if_pos (by decide)]
  have hm : matchScoreOf (predW.col "actual")
      (expectedActuals nbaW 1 (testStartOf nbaW.rows.length)) = 1 := by
    rw [matchScoreOf_eq, if_pos (by decide)]
  have hacc : accuracyScoreOf (predW.col "actual") (predW.col "predicted") = 1 := by
    rw [show predW.col "predicted" = predW.col "actual" from by decide]
    exact accuracyScoreOf_self _ (by decide)
  constructor
  · rw [grade_scoring envW predW "actual" "predicted" nbaW rfl (by decide) rfl,
      scoreSubmission_subscores predW "actual" "predicted" nbaW 1 (by decide),
      hs, hm, hacc]
  · rw [grade_scoring envW predW "actual" "predicted" nbaW rfl (by decide) rfl,
      scoreSubmission_feedback predW "actual" "predicted" nbaW 1 (by decide),
      hs, hm]
    have hfp : feedbackParts 1 predW.rows.length (expectedTestSizeOf nbaW.rows.length)
        1 (predW.col "actual") (predW.col "predicted")
        = ["Classification accuracy: "
             ++ fmt3 (accuracyScoreOf (predW.col "actual") (predW.col "predicted")),
           "Classification error: "
             ++ fmt3 (1 - accuracyScoreOf (predW.col "actual") (predW.col "predicted"))] := by
      unfold feedbackParts
      rw [if_neg (by norm_num), if_neg (by norm_num)]
      unfold accNotes
      rw [if_pos (by decide)]
      rfl
    rw [hfp]
    rw [if_neg (by simp)]
    have hint : String.intercalate " | "
        ["Classification accuracy: "
           ++ fmt3 (accuracyScoreOf (predW.col "actual") (predW.col "predicted")),
         "Classification error: "
           ++ fmt3 (1 - accuracyScoreOf (predW.col "actual") (predW.col "predicted"))]
        = (("Classification accuracy: "
             ++ fmt3 (accuracyScoreOf (predW.col "actual") (predW.col "predicted"))) ++ " | ")
          ++ ("Classification error: "
             ++ fmt3 (1 - accuracyScoreOf (predW.col "actual") (predW.col "predicted"))) := rfl
    rw [hint]
    intro h
    exact accHead_ne_success _ _ (Option.some.inj h)

/-- C8 (amended): for every graded submission that reaches scoring, the
feedback is the pipe-joined parts list, which contains a note for the
test-size sub-score iff it is below 1.0 and a note for the split sub-score
iff it is 0.0, but *always* contains the classification-accuracy notes
(both branches of the accuracy computation append one); consequently the
parts list is never empty and the generic success message is never
produced on the scoring path. -/
theorem c8_feedback (env : Env) (pred nba : DataFrame)
    (aCol pCol : String) (posIdx : Nat)
    (h1 : env.sol = some (Except.ok pred))
    (h2 : resolveCols pred.header = (some aCol, some pCol))
    (h3 : env.nba = Except.ok nba)
    (h4 : nba.header.findIdx? (fun c => c == "Pos") = some posIdx) :
    (grade env).feedback
      = some (String.intercalate " | " (feedbackParts
          (sizeScoreOf pred.rows.length (expectedTestSizeOf nba.rows.length))
          pred.rows.length (expectedTestSizeOf nba.rows.length)
          (matchScoreOf (pred.col aCol)
            (expectedActuals nba posIdx (testStartOf nba.rows.length)))
          (pred.col aCol) (pred.col pCol)))
    ∧ (∀ (s : ℚ) (ats ets : Nat) (m : ℚ) (a p : List String),
        feedbackParts s ats ets m a p
          = (if s < 1 then [ sizeNote ats ets] else [])
            ++ (if m = 0 then [splitNote] else []) ++ accNotes a p
        ∧ accNotes a p ≠ []) := by
  constructor
  · rw [grade_scoring env pred aCol pCol nba h1 h2 h3,
      scoreSubmission_feedback pred aCol pCol nba posIdx h4]
    rw [if_neg (by simp [feedbackParts_ne_nil])]
  · exact fun s ats ets m a p => ⟨rfl, accNotes_ne_nil a p⟩

/-- Witness for `c8_feedback` at the perfect run `envW`. -/
theorem c8_witness :
    (grade envW).feedback
      = some (String.intercalate " | " (feedbackParts
          (sizeScoreOf predW.rows.length (expectedTestSizeOf nbaW.rows.length))
          predW.rows.length (expectedTestSizeOf nbaW.rows.length)
          (matchScoreOf (predW.col "actual")
            (expectedActuals nbaW 1 (testStartOf nbaW.rows.length)))
          (predW.col "actual") (predW.col "predicted")))
    ∧ (∀ (s : ℚ) (ats ets : Nat) (m : ℚ) (a p : List String),
        feedbackParts s ats ets m a p
          = (if s < 1 then [ sizeNote ats ets] else [])
            ++ (if m = 0 then [splitNote] else []) ++ accNotes a p
        ∧ accNotes a p ≠ []) :=
  c8_feedback envW predW nbaW "actual" "predicted" 1 rfl (by decide) rfl
    (by decide)

/-- C10: the bonus override is a no-op — `test_size_correct` only takes
values in {1.0, 0.5} and `correct_test_split` in {1.0, 0.0}, so whenever
every sub-score is ≥ 0.95 those two are 1.0 and the weighted sum is
`0.5 + 0.5*accuracy ≥ accuracy`; hence for every submission reaching
scoring the final score equals the plain weighted sum and the override
never strictly raises it. -/
theorem c10_override_noop (env : Env) (pred nba : DataFrame)
    (aCol pCol : String) (posIdx : Nat)
    (h1 : env.sol = some (Except.ok pred))
    (h2 : resolveCols pred.header = (some aCol, some pCol))
    (h3 : env.nba = Except.ok nba)
    (h4 : nba.header.findIdx? (fun c => c == "Pos") = some posIdx) :
    (∀ a e : Nat, sizeScoreOf a e = 1 ∨ sizeScoreOf a e = 0.5)
    ∧ (∀ x y : List String, matchScoreOf x y = 1 ∨ matchScoreOf x y = 0)
    ∧ (grade env).score
        = 0.2 * sizeScoreOf pred.rows.length (expectedTestSizeOf nba.rows.length)
          + 0.3 * matchScoreOf (pred.col aCol)
              (expectedActuals nba posIdx (testStartOf nba.rows.length))
          + 0.5 * accuracyScoreOf (pred.col aCol) (pred.col pCol) := by
  refine ⟨sizeScoreOf_cases, matchScoreOf_cases, ?_⟩
  rw [grade_scoring env pred aCol pCol nba h1 h2 h3,
    scoreSubmission_score pred aCol pCol nba posIdx h4,
    finalScoreOf_eq_weighted _ _ _
      (sizeScoreOf_cases _ _) (matchScoreOf_cases _ _)
      (accuracyScoreOf_le_one _ _)]
  ring

/-- Witness for `c10_override_noop` at the perfect run `envW`. -/
theorem c10_witness :
    (∀ a e : Nat, sizeScoreOf a e = 1 ∨ sizeScoreOf a e = 0.5)
    ∧ (∀ x y : List String, matchScoreOf x y = 1 ∨ matchScoreOf x y = 0)
    ∧ (grade envW).score
        = 0.2 * sizeScoreOf predW.rows.length (expectedTestSizeOf nbaW.rows.length)
          + 0.3 * matchScoreOf (predW.col "actual")
              (expectedActuals nbaW 1 (testStartOf nbaW.rows.length))
          + 0.5 * accuracyScoreOf (predW.col "actual") (predW.col "predicted") :=
  c10_override_noop envW predW nbaW "actual" "predicted" 1 rfl (by decide) rfl
    (by decide)

end Grader
